import Mathlib

/-!
Verification of the bulk issue import pipeline of the Jira integration
dashboard (server action `bulkCreateIssues` and its helpers
`findUserByEmail` and `getIssueTypesForProject`).

The TypeScript source is shallowly embedded: spreadsheet rows become a
`Row` structure of raw string cells (the ingestor parses every cell with
a default of the empty string), JavaScript truthiness of a cell is
emptiness of the string, network calls become explicit oracle
parameters (the user-search response, the issue-type fetch response and
the bulk-create response), and the numeric result of JavaScript
`parseFloat` is modelled by `JsNum` with exact canonical-decimal
finite values.
The pipeline function additionally records, as data, which outbound
requests it issues (the single bulk request body and the list of
user-search queries), so that claims about network traffic are statable.
-/

set_option autoImplicit false

namespace JiraImport

/-! ### Substring machinery, used to state that a report message contains
a given fragment (JavaScript template strings are plain concatenation). -/

/-- Boolean test that the first list is a prefix of the second. -/
def prefixOf : List Char → List Char → Bool
  | [], _ => true
  | _ :: _, [] => false
  | a :: as, b :: bs => a = b && prefixOf as bs

/-- Boolean test that the pattern occurs as a contiguous segment of the list. -/
def containsSeg (pat : List Char) : List Char → Bool
  | [] => prefixOf pat []
  | b :: bs => prefixOf pat (b :: bs) || containsSeg pat bs

/-- The string `big` contains `pat` as a substring. -/
def strIncludes (big pat : String) : Bool :=
  containsSeg pat.data big.data

/-- The string `big` starts with `pat`. -/
def strStartsWith (big pat : String) : Bool :=
  prefixOf pat.data big.data

/-- JavaScript `Array.prototype.join(sep)` on a list of strings. -/
def joinSep (sep : String) : List String → String
  | [] => ""
  | [s] => s
  | s :: ss => s ++ sep ++ joinSep sep ss

theorem prefixOf_iff (p s : List Char) :
    prefixOf p s = true ↔ ∃ t, s = p ++ t := by
  induction p generalizing s with
  | nil => simp [prefixOf]
  | cons a as ih =>
    cases s with
    | nil => simp [prefixOf]
    | cons b bs =>
      simp only [prefixOf, Bool.and_eq_true, decide_eq_true_eq, ih, List.cons_append,
        List.cons.injEq]
      constructor
      · rintro ⟨rfl, t, rfl⟩
        exact ⟨t, rfl, rfl⟩
      · rintro ⟨t, rfl, rfl⟩
        exact ⟨rfl, t, rfl⟩

theorem containsSeg_iff (p s : List Char) :
    containsSeg p s = true ↔ ∃ l r, s = l ++ p ++ r := by
  induction s with
  | nil =>
    simp only [containsSeg, prefixOf_iff]
    constructor
    · rintro ⟨t, ht⟩
      exact ⟨[], t, by simpa using ht⟩
    · rintro ⟨l, r, h⟩
      refine ⟨r, ?_⟩
      have hl : l = [] := by
        cases l with
        | nil => rfl
        | cons x xs => simp at h
      subst hl
      simpa using h
  | cons b bs ih =>
    simp only [containsSeg, Bool.or_eq_true, prefixOf_iff, ih]
    constructor
    · rintro (⟨t, ht⟩ | ⟨l, r, hr⟩)
      · exact ⟨[], t, by simpa using ht⟩
      · exact ⟨b :: l, r, by simp [hr]⟩
    · rintro ⟨l, r, h⟩
      cases l with
      | nil =>
        left
        exact ⟨r, by simpa using h⟩
      | cons x xs =>
        right
        simp only [List.cons_append, List.cons.injEq] at h
        exact ⟨xs, r, h.2⟩

theorem strIncludes_iff (big pat : String) :
    strIncludes big pat = true ↔ ∃ l r, big.data = l ++ pat.data ++ r :=
  containsSeg_iff pat.data big.data

theorem data_append (a b : String) : (a ++ b).data = a.data ++ b.data :=
  String.data_append a b

theorem strIncludes_self (a : String) : strIncludes a a = true := by
  rw [strIncludes_iff]
  exact ⟨[], [], by simp⟩

theorem strIncludes_appendL {a pat : String} (b : String)
    (h : strIncludes a pat = true) : strIncludes (a ++ b) pat = true := by
  rw [strIncludes_iff] at h ⊢
  obtain ⟨l, r, hr⟩ := h
  exact ⟨l, r ++ b.data, by simp [data_append, hr]⟩

theorem strIncludes_appendR {b pat : String} (a : String)
    (h : strIncludes b pat = true) : strIncludes (a ++ b) pat = true := by
  rw [strIncludes_iff] at h ⊢
  obtain ⟨l, r, hr⟩ := h
  exact ⟨a.data ++ l, r, by simp [data_append, hr]⟩

theorem strIncludes_trans {big mid pat : String}
    (h1 : strIncludes big mid = true) (h2 : strIncludes mid pat = true) :
    strIncludes big pat = true := by
  rw [strIncludes_iff] at h1 h2 ⊢
  obtain ⟨l1, r1, h1⟩ := h1
  obtain ⟨l2, r2, h2⟩ := h2
  exact ⟨l1 ++ l2, r2 ++ r1, by simp [h1, h2]⟩

theorem strIncludes_of_mem_joinSep {x : String} (sep : String) {l : List String}
    (h : x ∈ l) : strIncludes (joinSep sep l) x = true := by
  induction l with
  | nil => cases h
  | cons s ss ih =>
    cases ss with
    | nil =>
      rcases List.mem_singleton.mp h with rfl
      exact strIncludes_self x
    | cons t ts =>
      show strIncludes (s ++ sep ++ joinSep sep (t :: ts)) x = true
      rcases List.mem_cons.mp h with rfl | hmem
      · exact strIncludes_appendL _ (strIncludes_appendL _ (strIncludes_self x))
      · exact strIncludes_appendR _ (ih hmem)

/-! ### Data model

Shallow embedding of the TypeScript data shapes used by the import
pipeline (`src/lib/types.ts` and the row objects produced by
`xlsx.utils.sheet_to_json(worksheet, { defval: "" })`). Only the fields
the pipeline reads are carried. -/

/-- A user record returned by the tracker's user search
(`JiraUser`; `emailAddress` is optional in the source). -/
structure JiraUser where
  accountId : String
  emailAddress : Option String
deriving Repr, DecidableEq

/-- An issue-type descriptor returned by
`GET /rest/api/3/issuetype/project` (`JiraIssueType`); only the fields
read by the pipeline are kept. -/
structure JiraIssueType where
  id : String
  name : String
  subtask : Bool
deriving Repr, DecidableEq

/-- One data row of the uploaded spreadsheet. `sheet_to_json` is called
with `defval: ""`, so every recognized column is present and a missing
cell is the empty string; JavaScript truthiness of a cell is therefore
non-emptiness of the string. -/
structure Row where
  summary : String
  issueType : String
  description : String
  assigneeEmail : String
  reporterEmail : String
  storyPoints : String
  parentKey : String
deriving Repr, DecidableEq

/-- JavaScript `String.prototype.toLowerCase` restricted to the ASCII
range (sufficient for issue-type names and email addresses), defined
character-by-character so that it evaluates by kernel reduction. -/
def jsToLower (s : String) : String :=
  ⟨s.data.map Char.toLower⟩

/-- JavaScript `String.prototype.trim`: strip leading and trailing
whitespace. -/
def jsTrim (s : String) : String :=
  ⟨((s.data.dropWhile Char.isWhitespace).reverse.dropWhile Char.isWhitespace).reverse⟩

/-- The result of JavaScript `parseFloat`: a finite decimal
`m * 10 ^ e` in canonical form (`m` not divisible by ten unless zero,
and `e = 0` when `m = 0`, so value equality is constructor equality),
a signed infinity, or `NaN`. -/
inductive JsNum
  | fin (m : Int) (e : Int)
  | inf (neg : Bool)
  | nan
deriving Repr, DecidableEq

/-- JavaScript truthiness of a number: `0` (also `-0`) is falsy, every
other number (including `NaN` and the infinities) is truthy. -/
def jsTruthy : JsNum → Bool
  | .fin m _ => decide (m ≠ 0)
  | .inf _ => true
  | .nan => true

/-- JavaScript `isNaN` on a parsed number. -/
def jsIsNaN : JsNum → Bool
  | .nan => true
  | _ => false

/-- Value of a list of decimal digit characters. -/
def digitsToNat (ds : List Char) : Nat :=
  ds.foldl (fun n c => 10 * n + (c.toNat - 48)) 0

/-- Strip factors of ten from a mantissa, moving them into the
exponent; the fuel bounds the number of strips. -/
def stripTens : Nat → Nat → Int → Nat × Int
  | 0, m, e => (m, e)
  | fuel + 1, m, e =>
    if m % 10 = 0 ∧ m ≠ 0 then stripTens fuel (m / 10) (e + 1) else (m, e)

/-- Canonical finite `JsNum` with value `(-1)^neg * M * 10 ^ E`. -/
def canonFin (neg : Bool) (M : Nat) (E : Int) : JsNum :=
  if M = 0 then .fin 0 0
  else
    let p := stripTens M M E
    .fin (if neg then -(p.1 : Int) else (p.1 : Int)) p.2

/-- JavaScript `parseFloat`: skip leading whitespace, then parse the
longest prefix of the form sign? (Infinity | digits (. digits?)? | . digits)
exponent?, yielding `NaN` when no such prefix exists and ignoring any
trailing garbage. Finite values are represented exactly as canonical
decimals. -/
def jsParseFloat (s : String) : JsNum :=
  let l := s.data.dropWhile Char.isWhitespace
  let neg : Bool := match l with
    | '-' :: _ => true
    | _ => false
  let l₁ : List Char := match l with
    | '-' :: t => t
    | '+' :: t => t
    | _ => l
  if l₁.take 8 = ['I', 'n', 'f', 'i', 'n', 'i', 't', 'y'] then .inf neg
  else
    let ip := l₁.takeWhile Char.isDigit
    let r₁ := l₁.dropWhile Char.isDigit
    let fp : List Char := match r₁ with
      | '.' :: t => t.takeWhile Char.isDigit
      | _ => []
    let r₂ : List Char := match r₁ with
      | '.' :: t => t.dropWhile Char.isDigit
      | _ => r₁
    if ip = [] ∧ fp = [] then .nan
    else
      let exp : Int := match r₂ with
        | c :: t =>
          if c = 'e' ∨ c = 'E' then
            let eneg : Bool := match t with
              | '-' :: _ => true
              | _ => false
            let t₁ : List Char := match t with
              | '-' :: u => u
              | '+' :: u => u
              | _ => t
            let ed := t₁.takeWhile Char.isDigit
            if ed = [] then 0
            else if eneg then -(digitsToNat ed : Int) else (digitsToNat ed : Int)
          else 0
        | [] => 0
      let M : Nat := digitsToNat ip * 10 ^ fp.length + digitsToNat fp
      canonFin neg M (exp - (fp.length : Int))

/-- A character allowed by the source's email regex character class
`[^\s@]` (JavaScript `\s` approximated by `Char.isWhitespace`). -/
def emailCharOk (c : Char) : Bool :=
  !(c.isWhitespace || c = '@')

/-- The email format test `/^[^\s@]+@[^\s@]+\.[^\s@]+$/` from
`findUserByEmail`: a non-empty local part, one `@`, and a domain part
containing a dot with at least one allowed character on each side. -/
def validEmailFormat (s : String) : Bool :=
  let l := s.data
  match l.findIdx? (fun c => c = '@') with
  | none => false
  | some i =>
    let before := l.take i
    let after := l.drop (i + 1)
    !before.isEmpty && before.all emailCharOk && after.all emailCharOk &&
      ((after.drop 1).dropLast.any (fun c => c = '.'))

/-- `findUserByEmail(email, domain, encodedCredentials)`: reject empty or
malformed emails without any request, otherwise search users (the
network response is the oracle `search`) and return the first user whose
registered address matches case-insensitively, or `none`. A failed or
erroring search is modelled by the oracle returning `[]`. -/
def findUserByEmail (search : String → List JiraUser) (email : String) :
    Option JiraUser :=
  if email = "" ∨ validEmailFormat email = false then none
  else (search email).find?
    (fun u => u.emailAddress.map jsToLower == some (jsToLower email))

/-- The user-search requests issued by one `findUserByEmail` call: one
request exactly when the email passes the format guard. -/
def findUserRequests (email : String) : List String :=
  if email = "" ∨ validEmailFormat email = false then [] else [email]

/-- Lookup in `validIssueTypesMap = new Map(projectIssueTypes.map(it =>
[it.name.toLowerCase(), it]))`: with duplicate lowercased names the last
entry wins. -/
def validTypeLookup (its : List JiraIssueType) (key : String) :
    Option JiraIssueType :=
  (its.filter (fun it => jsToLower it.name == key)).getLast?

/-- Key insertion for a JavaScript `Map`: an already-present key keeps
its original position, a new key is appended. -/
def insertKey (ks : List String) (k : String) : List String :=
  if k ∈ ks then ks else ks ++ [k]

/-- `Array.from(validIssueTypesMap.keys())`: the lowercased type names in
first-insertion order, without duplicates. -/
def mapKeys (its : List JiraIssueType) : List String :=
  its.foldl (fun ks it => insertKey ks (jsToLower it.name)) []

/-! ### Row validation and payload construction -/

/-- The `fields` object of one issue-creation payload (`baseFields` in
the source). Optional entries model fields that the source attaches
conditionally; `description` holds the paragraph texts of the structured
document (`content` is empty when the cell is empty). -/
structure IssueFields where
  projectId : String
  summary : String
  description : List String
  issuetypeId : String
  assignee : Option String
  reporter : Option String
  storyPoints : Option JsNum
  parent : Option String
  epicName : Option String
deriving Repr, DecidableEq

/-- Terminal result of the per-row callback inside `data.map(...)`: a
payload, a silent `return null` (missing Summary or Issue Type, nothing
recorded), or a `return null` after pushing a reason onto
`issueCreationFailures`. -/
inductive RowResult
  | payload (p : IssueFields)
  | silentSkip
  | reasonSkip (reason : String)
deriving Repr, DecidableEq

/-- The per-row callback of `bulkCreateIssues` (lines 344-408 of the
source): validation guards in source order, then payload construction.
`idx` is the 0-based position of the row in the parsed data. -/
def processRow (its : List JiraIssueType) (search : String → List JiraUser)
    (projectId currentUserEmail : String) (idx : Nat) (row : Row) : RowResult :=
  let rowNum := idx + 2
  if row.summary = "" ∨ row.issueType = "" then .silentSkip
  else
    let issueTypeName := jsToLower (jsTrim row.issueType)
    match validTypeLookup its issueTypeName with
    | none =>
      .reasonSkip ("Row " ++ toString rowNum ++ ": Invalid issue type \"" ++
        row.issueType ++ "\". Valid types for this project are: " ++
        joinSep ", " (mapKeys its) ++ ".")
    | some issueType =>
      if issueType.subtask ∧ row.parentKey = "" then
        .reasonSkip ("Row " ++ toString rowNum ++ ": Sub-task \"" ++
          row.summary ++ "\" is missing a \x27Parent Key\x27.")
      else
        let assignee := if row.assigneeEmail = "" then none
          else findUserByEmail search row.assigneeEmail
        let reporter := if row.reporterEmail = "" then
            findUserByEmail search currentUserEmail
          else findUserByEmail search row.reporterEmail
        let storyPoints : Option JsNum := if row.storyPoints = "" then none
          else some (jsParseFloat row.storyPoints)
        .payload {
          projectId := projectId
          summary := row.summary
          description := if row.description = "" then [] else [row.description]
          issuetypeId := issueType.id
          assignee := assignee.bind
            (fun u => if u.accountId = "" then none else some u.accountId)
          reporter := reporter.bind
            (fun u => if u.accountId = "" then none else some u.accountId)
          storyPoints := storyPoints.bind
            (fun n => if jsTruthy n && !jsIsNaN n then some n else none)
          parent := if issueType.subtask ∧ row.parentKey ≠ "" then
              some row.parentKey
            else none
          epicName := if jsToLower issueType.name = "epic" then some row.summary
            else none }

/-- All row results, in row order, starting from 0-based index `i`.
The pushes onto `issueCreationFailures` happen in the synchronous part
of each callback, before its first `await`, so the recorded order is row
order even though the callbacks are awaited jointly. -/
def processRows (its : List JiraIssueType) (search : String → List JiraUser)
    (projectId currentUserEmail : String) : Nat → List Row → List RowResult
  | _, [] => []
  | i, row :: rest =>
    processRow its search projectId currentUserEmail i row ::
      processRows its search projectId currentUserEmail (i + 1) rest

/-- Extract a recorded skip reason from a row result. -/
def reasonOf : RowResult → Option String
  | .reasonSkip s => some s
  | _ => none

/-- Extract a built payload from a row result. -/
def payloadOf : RowResult → Option IssueFields
  | .payload p => some p
  | _ => none

/-- The accumulated `issueCreationFailures` array. -/
def recordedFailures (its : List JiraIssueType) (search : String → List JiraUser)
    (projectId currentUserEmail : String) (data : List Row) : List String :=
  (processRows its search projectId currentUserEmail 0 data).filterMap reasonOf

/-- `validPayloads = issuePayloads.filter(p => p !== null)`. -/
def validPayloads (its : List JiraIssueType) (search : String → List JiraUser)
    (projectId currentUserEmail : String) (data : List Row) : List IssueFields :=
  (processRows its search projectId currentUserEmail 0 data).filterMap payloadOf

/-- The user-search requests issued while processing one row: none when
the row is skipped before user resolution, otherwise the assignee lookup
(when the cell is non-empty) and the reporter lookup (the cell when
non-empty, else the importing user's email), each filtered by
`findUserByEmail`'s format guard. -/
def rowRequests (its : List JiraIssueType) (currentUserEmail : String)
    (row : Row) : List String :=
  if row.summary = "" ∨ row.issueType = "" then []
  else
    match validTypeLookup its (jsToLower (jsTrim row.issueType)) with
    | none => []
    | some issueType =>
      if issueType.subtask ∧ row.parentKey = "" then []
      else
        (if row.assigneeEmail = "" then [] else findUserRequests row.assigneeEmail) ++
          (if row.reporterEmail = "" then findUserRequests currentUserEmail
            else findUserRequests row.reporterEmail)

/-- All user-search requests issued during one import call, as a
multiset of queried emails (the rows are resolved concurrently, so only
the multiplicity per email is meaningful). -/
def userSearchRequests (its : List JiraIssueType) (currentUserEmail : String)
    (data : List Row) : List String :=
  (data.map (rowRequests its currentUserEmail)).flatten

/-! ### Schema fetch, bulk submission and report aggregation -/

/-- Outcome of one HTTP `fetch` of a JSON body, as the source
distinguishes it: an ok response with a parsed body, a non-ok status, or
a thrown network error. -/
inductive HttpResp (α : Type)
  | ok (body : α)
  | fail (status : Nat)
  | netError
deriving Repr, DecidableEq

/-- `getIssueTypesForProject`: maps the HTTP outcome of
`GET /rest/api/3/issuetype/project` to either the issue-type list or one
of the two fixed error strings of the source. -/
def getIssueTypesForProject (resp : HttpResp (List JiraIssueType)) :
    Except String (List JiraIssueType) :=
  match resp with
  | .ok body => .ok body
  | .fail _ =>
    .error "Failed to fetch issue types. Your token might have expired or lacks permissions."
  | .netError => .error "Could not connect to Jira to fetch issue types."

/-- One entry of `result.errors` in the bulk-create response:
`failedElementNumber` indexes into the submitted batch, and
`errorMessages` are the element's error messages
(`e.elementErrors.errorMessages`). -/
structure BulkError where
  failedElementNumber : Nat
  errorMessages : List String
deriving Repr, DecidableEq

/-- Parsed body of an ok `POST /rest/api/3/issue/bulk` response: the
keys of the created issues and the per-element errors. -/
structure BulkResult where
  issueKeys : List String
  errors : List BulkError
deriving Repr, DecidableEq

/-- Transport-level outcome of the bulk-create call: a non-ok response
(whose rendered error message is carried abstractly, its construction is
outside every claim) or an ok response with a parsed body. -/
inductive BulkCallResult
  | httpError (msg : String)
  | ok (result : BulkResult)

/-- The `{ success, error }` value returned by `bulkCreateIssues`,
extended with the `createdCount` and `failedCount` the source computes
when the bulk call got an ok response (`none` on every earlier exit). -/
structure ImportOutcome where
  success : Bool
  error : Option String
  createdCount : Option Nat
  failedCount : Option Nat
deriving Repr, DecidableEq

/-- One full run of the import: the returned outcome together with the
outbound traffic it generated (the single bulk request body, if one was
issued, and the user-search queries). -/
structure ImportRun where
  outcome : ImportOutcome
  bulkRequest : Option (List IssueFields)
  userRequests : List String
deriving Repr, DecidableEq

/-- One line of `apiErrorDetails` (lines 439-443 of the source): the
failing element's summary is read back from `validPayloads` at the
batch index (JavaScript renders an out-of-range access as `undefined`),
and an empty joined message list falls back to a fixed text. -/
def apiErrorDetail (payloads : List IssueFields) (e : BulkError) : String :=
  let failedIssueSummary := match payloads.get? e.failedElementNumber with
    | some p => p.summary
    | none => "undefined"
  let joined := joinSep ", " e.errorMessages
  let errorMessages := if joined = "" then "An unspecified error occurred." else joined
  "Issue \"" ++ failedIssueSummary ++ "\": " ++ errorMessages

/-- `bulkCreateIssues` from the configuration fetch onward (lines
336-455 of the source), for an already-parsed spreadsheet with the
required headers present. `issueTypesResult` is the value of
`getIssueTypesForProject`; its error case is re-thrown and caught as the
returned failure. `bulkCall` is the bulk-create network oracle, applied
to the single batch request when one is issued. -/
def bulkCreateIssuesRun (issueTypesResult : Except String (List JiraIssueType))
    (search : String → List JiraUser)
    (bulkCall : List IssueFields → BulkCallResult)
    (projectId currentUserEmail : String) (data : List Row) : ImportRun :=
  match issueTypesResult with
  | .error e =>
    { outcome := { success := false, error := some e, createdCount := none, failedCount := none }
      bulkRequest := none
      userRequests := [] }
  | .ok its =>
    let issueCreationFailures := recordedFailures its search projectId currentUserEmail data
    let payloads := validPayloads its search projectId currentUserEmail data
    let requests := userSearchRequests its currentUserEmail data
    if payloads.isEmpty then
      let errorSummary := if issueCreationFailures.isEmpty then
          "No valid issues found in the file to import."
        else joinSep " " issueCreationFailures
      { outcome := { success := false, error := some errorSummary, createdCount := none, failedCount := none }
        bulkRequest := none
        userRequests := requests }
    else
      match bulkCall payloads with
      | .httpError msg =>
        { outcome := { success := false, error := some msg, createdCount := none, failedCount := none }
          bulkRequest := some payloads
          userRequests := requests }
      | .ok result =>
        let failedCount := result.errors.length + issueCreationFailures.length
        let createdCount := result.issueKeys.length
        if 0 < failedCount then
          let apiErrorDetails := joinSep "; " (result.errors.map (apiErrorDetail payloads))
          let failureSummary := joinSep "; "
            ((issueCreationFailures ++ [apiErrorDetails]).filter (fun s => s ≠ ""))
          let errorMessage := "Import complete. " ++ toString createdCount ++
            " issues created, " ++ toString failedCount ++ " failed. Failures: " ++
            failureSummary
          { outcome := { success := false, error := some errorMessage, createdCount := some createdCount, failedCount := some failedCount }
            bulkRequest := some payloads
            userRequests := requests }
        else
          { outcome := { success := true, error := none, createdCount := some createdCount, failedCount := some failedCount }
            bulkRequest := some payloads
            userRequests := requests }

/-! ### Branch equations for the per-row callback -/

theorem processRow_silent (its : List JiraIssueType) (search : String → List JiraUser)
    (pid cu : String) (idx : Nat) (row : Row)
    (h : row.summary = "" ∨ row.issueType = "") :
    processRow its search pid cu idx row = .silentSkip := by
  unfold processRow
  rw [if_pos h]

theorem processRow_invalidType (its : List JiraIssueType) (search : String → List JiraUser)
    (pid cu : String) (idx : Nat) (row : Row)
    (h1 : ¬(row.summary = "" ∨ row.issueType = ""))
    (h2 : validTypeLookup its (jsToLower (jsTrim row.issueType)) = none) :
    processRow its search pid cu idx row =
      .reasonSkip ("Row " ++ toString (idx + 2) ++ ": Invalid issue type \"" ++
        row.issueType ++ "\". Valid types for this project are: " ++
        joinSep ", " (mapKeys its) ++ ".") := by
  unfold processRow
  rw [if_neg h1]
  simp only [h2]

theorem processRow_subtaskNoParent (its : List JiraIssueType) (search : String → List JiraUser)
    (pid cu : String) (idx : Nat) (row : Row) (it : JiraIssueType)
    (h1 : ¬(row.summary = "" ∨ row.issueType = ""))
    (h2 : validTypeLookup its (jsToLower (jsTrim row.issueType)) = some it)
    (h3 : it.subtask = true) (h4 : row.parentKey = "") :
    processRow its search pid cu idx row =
      .reasonSkip ("Row " ++ toString (idx + 2) ++ ": Sub-task \"" ++
        row.summary ++ "\" is missing a \x27Parent Key\x27.") := by
  unfold processRow
  rw [if_neg h1]
  simp only [h2]
  rw [if_pos ⟨h3, h4⟩]

theorem processRow_payload (its : List JiraIssueType) (search : String → List JiraUser)
    (pid cu : String) (idx : Nat) (row : Row) (it : JiraIssueType)
    (h1 : ¬(row.summary = "" ∨ row.issueType = ""))
    (h2 : validTypeLookup its (jsToLower (jsTrim row.issueType)) = some it)
    (h3 : ¬(it.subtask = true ∧ row.parentKey = "")) :
    processRow its search pid cu idx row = .payload
      { projectId := pid
        summary := row.summary
        description := if row.description = "" then [] else [row.description]
        issuetypeId := it.id
        assignee := (if row.assigneeEmail = "" then none
            else findUserByEmail search row.assigneeEmail).bind
          (fun u => if u.accountId = "" then none else some u.accountId)
        reporter := (if row.reporterEmail = "" then findUserByEmail search cu
            else findUserByEmail search row.reporterEmail).bind
          (fun u => if u.accountId = "" then none else some u.accountId)
        storyPoints := (if row.storyPoints = "" then none
            else some (jsParseFloat row.storyPoints)).bind
          (fun n => if jsTruthy n && !jsIsNaN n then some n else none)
        parent := if it.subtask ∧ row.parentKey ≠ "" then some row.parentKey else none
        epicName := if jsToLower it.name = "epic" then some row.summary else none } := by
  unfold processRow
  rw [if_neg h1]
  simp only [h2]
  rw [if_neg h3]

/-! ### Generic lemmas about the pipeline pieces -/

theorem mem_insertKey_of_mem {ks : List String} {x : String} (k : String)
    (h : x ∈ ks) : x ∈ insertKey ks k := by
  unfold insertKey
  split
  · exact h
  · exact List.mem_append_left _ h

theorem self_mem_insertKey (ks : List String) (k : String) : k ∈ insertKey ks k := by
  unfold insertKey
  split
  · assumption
  · exact List.mem_append_right _ (List.mem_singleton.mpr rfl)

theorem mem_foldl_insertKey_of_mem (its : List JiraIssueType) :
    ∀ (init : List String) (x : String), x ∈ init →
      x ∈ its.foldl (fun ks it => insertKey ks (jsToLower it.name)) init := by
  induction its with
  | nil => intro init x h; exact h
  | cons it rest ih =>
    intro init x h
    exact ih _ x (mem_insertKey_of_mem _ h)

theorem lowerName_mem_foldl_insertKey (its : List JiraIssueType) :
    ∀ (init : List String) (it : JiraIssueType), it ∈ its →
      jsToLower it.name ∈ its.foldl (fun ks it => insertKey ks (jsToLower it.name)) init := by
  induction its with
  | nil => intro init it h; cases h
  | cons hd rest ih =>
    intro init it h
    rcases List.mem_cons.mp h with rfl | hmem
    · exact mem_foldl_insertKey_of_mem rest _ _ (self_mem_insertKey init (jsToLower it.name))
    · exact ih _ it hmem

theorem lowerName_mem_mapKeys {its : List JiraIssueType} {it : JiraIssueType}
    (h : it ∈ its) : jsToLower it.name ∈ mapKeys its :=
  lowerName_mem_foldl_insertKey its [] it h

theorem mem_processRows {its : List JiraIssueType} {search : String → List JiraUser}
    {pid cu : String} :
    ∀ (data : List Row) (i : Nat) (res : RowResult),
      res ∈ processRows its search pid cu i data →
      ∃ j row, data.get? j = some row ∧ processRow its search pid cu (i + j) row = res := by
  intro data
  induction data with
  | nil => intro i res h; cases h
  | cons row rest ih =>
    intro i res h
    rcases List.mem_cons.mp h with rfl | hmem
    · exact ⟨0, row, rfl, by rw [Nat.add_zero]⟩
    · obtain ⟨j, row', hget, hrow⟩ := ih (i + 1) res hmem
      refine ⟨j + 1, row', hget, ?_⟩
      rw [show i + (j + 1) = i + 1 + j by omega]
      exact hrow

theorem mem_validPayloads {its : List JiraIssueType} {search : String → List JiraUser}
    {pid cu : String} {data : List Row} {p : IssueFields}
    (h : p ∈ validPayloads its search pid cu data) :
    ∃ j row, data.get? j = some row ∧ processRow its search pid cu j row = .payload p := by
  unfold validPayloads at h
  obtain ⟨res, hres, hpay⟩ := List.mem_filterMap.mp h
  obtain ⟨j, row, hget, hrow⟩ := mem_processRows data 0 res hres
  refine ⟨j, row, hget, ?_⟩
  rw [Nat.zero_add] at hrow
  rw [hrow]
  cases res with
  | payload q => cases hpay; rfl
  | silentSkip => cases hpay
  | reasonSkip s => cases hpay

theorem count_userSearchRequests_replicate (its : List JiraIssueType) (cu : String)
    (row : Row) (e : String) :
    ∀ n, (userSearchRequests its cu (List.replicate n row)).count e =
      n * (rowRequests its cu row).count e := by
  intro n
  induction n with
  | zero => simp [userSearchRequests]
  | succ k ih =>
    unfold userSearchRequests at ih ⊢
    rw [List.replicate_succ, List.map_cons, List.flatten_cons, List.count_append, ih]
    ring

theorem strStartsWith_appendL {a pat : String} (b : String)
    (h : strStartsWith a pat = true) : strStartsWith (a ++ b) pat = true := by
  unfold strStartsWith at h ⊢
  rw [prefixOf_iff] at h ⊢
  obtain ⟨t, ht⟩ := h
  exact ⟨t ++ b.data, by rw [data_append, ht, List.append_assoc]⟩

theorem prefixOf_append_both (x : List Char) {z y : List Char}
    (h : prefixOf z y = true) : prefixOf (x ++ z) (x ++ y) = true := by
  rw [prefixOf_iff] at h ⊢
  obtain ⟨t, ht⟩ := h
  exact ⟨t, by rw [ht, List.append_assoc]⟩

theorem strStartsWith_append_both (x : String) {z y : String}
    (h : strStartsWith y z = true) : strStartsWith (x ++ y) (x ++ z) = true := by
  unfold strStartsWith at h ⊢
  rw [data_append, data_append]
  exact prefixOf_append_both x.data h

theorem strIncludes_ne_empty {big pat : String}
    (h : strIncludes big pat = true) (hp : pat ≠ "") : big ≠ "" := by
  rw [strIncludes_iff] at h
  obtain ⟨l, r, hr⟩ := h
  intro hbig
  apply hp
  subst hbig
  have : pat.data = [] := by
    have h0 : ([] : List Char) = l ++ pat.data ++ r := hr
    cases l with
    | cons x xs => cases h0
    | nil =>
      cases hpat : pat.data with
      | nil => rfl
      | cons y ys => rw [hpat] at h0; cases h0
  cases pat with
  | mk d => cases this; rfl

theorem strStartsWith_strIncludes {big pat : String}
    (h : strStartsWith big pat = true) : strIncludes big pat = true := by
  unfold strStartsWith at h
  rw [prefixOf_iff] at h
  obtain ⟨t, ht⟩ := h
  rw [strIncludes_iff]
  exact ⟨[], t, by simpa using ht⟩

/-! ### Run-level helper lemmas -/

theorem run_empty_payloads (its : List JiraIssueType) (search : String → List JiraUser)
    (bulkCall : List IssueFields → BulkCallResult) (pid cu : String) (data : List Row)
    (h : validPayloads its search pid cu data = []) :
    bulkCreateIssuesRun (.ok its) search bulkCall pid cu data =
      { outcome := { success := false
                     error := some (if (recordedFailures its search pid cu data).isEmpty then
                         "No valid issues found in the file to import."
                       else joinSep " " (recordedFailures its search pid cu data))
                     createdCount := none
                     failedCount := none }
        bulkRequest := none
        userRequests := userSearchRequests its cu data } := by
  simp only [bulkCreateIssuesRun, h, List.isEmpty_nil, if_true]

theorem run_bulk_ok_counts (its : List JiraIssueType) (search : String → List JiraUser)
    (bulkCall : List IssueFields → BulkCallResult) (pid cu : String) (data : List Row)
    (result : BulkResult)
    (hne : (validPayloads its search pid cu data).isEmpty = false)
    (hcall : bulkCall (validPayloads its search pid cu data) = .ok result) :
    (bulkCreateIssuesRun (.ok its) search bulkCall pid cu data).outcome.createdCount =
        some result.issueKeys.length ∧
    (bulkCreateIssuesRun (.ok its) search bulkCall pid cu data).outcome.failedCount =
        some (result.errors.length + (recordedFailures its search pid cu data).length) := by
  simp only [bulkCreateIssuesRun, hne, Bool.false_eq_true, if_false, hcall]
  split <;> exact ⟨rfl, rfl⟩

theorem run_bulk_ok_failed (its : List JiraIssueType) (search : String → List JiraUser)
    (bulkCall : List IssueFields → BulkCallResult) (pid cu : String) (data : List Row)
    (result : BulkResult)
    (hne : (validPayloads its search pid cu data).isEmpty = false)
    (hcall : bulkCall (validPayloads its search pid cu data) = .ok result)
    (hpos : 0 < result.errors.length + (recordedFailures its search pid cu data).length) :
    (bulkCreateIssuesRun (.ok its) search bulkCall pid cu data).outcome.error =
      some ("Import complete. " ++ toString result.issueKeys.length ++
        " issues created, " ++
        toString (result.errors.length + (recordedFailures its search pid cu data).length) ++
        " failed. Failures: " ++
        joinSep "; " (((recordedFailures its search pid cu data) ++
          [joinSep "; " (result.errors.map
            (apiErrorDetail (validPayloads its search pid cu data)))]).filter
              (fun s => s ≠ ""))) := by
  simp only [bulkCreateIssuesRun, hne, Bool.false_eq_true, if_false, hcall]
  rw [if_pos hpos]

theorem run_bulkRequest_some {its : List JiraIssueType} {search : String → List JiraUser}
    {bulkCall : List IssueFields → BulkCallResult} {pid cu : String} {data : List Row}
    {ps : List IssueFields}
    (h : (bulkCreateIssuesRun (.ok its) search bulkCall pid cu data).bulkRequest = some ps) :
    ps = validPayloads its search pid cu data ∧
      validPayloads its search pid cu data ≠ [] := by
  by_cases hemp : validPayloads its search pid cu data = []
  · rw [run_empty_payloads its search bulkCall pid cu data hemp] at h
    cases h
  · constructor
    · simp only [bulkCreateIssuesRun] at h
      rw [if_neg (by simpa [List.isEmpty_iff] using hemp)] at h
      rcases hbc : bulkCall (validPayloads its search pid cu data) with msg | result
      · rw [hbc] at h
        cases h
        rfl
      · rw [hbc] at h
        dsimp only at h
        by_cases hpos :
            0 < result.errors.length + (recordedFailures its search pid cu data).length
        · rw [if_pos hpos] at h
          cases h
          rfl
        · rw [if_neg hpos] at h
          cases h
          rfl
    · exact hemp

/-! ### Concrete fixtures used in counterexamples and witnesses -/

/-- A plain non-subtask issue type named Task. -/
def taskType : JiraIssueType := { id := "10002", name := "Task", subtask := false }

/-- A plain non-subtask issue type named Story (note the capital letter). -/
def storyType : JiraIssueType := { id := "10001", name := "Story", subtask := false }

/-- A subtask-flagged issue type. -/
def subtaskType : JiraIssueType := { id := "10003", name := "Sub-task", subtask := true }

/-- An issue type named Epic. -/
def epicType : JiraIssueType := { id := "10000", name := "Epic", subtask := false }

/-- A user-search oracle that never finds anyone. -/
def emptySearch : String → List JiraUser := fun _ => []

/-- A well-formed Task row. -/
def baseRow : Row :=
  { summary := "Alpha", issueType := "Task", description := "",
    assigneeEmail := "", reporterEmail := "", storyPoints := "", parentKey := "" }

/-- A second well-formed Task row with a different summary. -/
def betaRow : Row := { baseRow with summary := "Beta" }

/-- A row naming an issue type that does not exist in the project. -/
def rowBug : Row := { baseRow with issueType := "Bug" }

/-- A row with an empty Summary cell. -/
def rowNoSummary : Row := { baseRow with summary := "" }

/-- A sub-task row with an empty Summary and no Parent Key. -/
def rowSubEmptySummary : Row := { baseRow with summary := "", issueType := "Sub-task" }

/-- A Task row whose Story Points cell is the digit zero. -/
def rowZeroPoints : Row := { baseRow with storyPoints := "0" }

/-- A Task row referencing assignee and reporter emails. -/
def rowDupEmails : Row :=
  { baseRow with assigneeEmail := "dev@example.com", reporterEmail := "lead@example.com" }

/-! ### Claim theorems -/

/-- C7: for every row whose Summary cell or Issue Type cell is empty, the
row's outcome is the silent skip (no payload is built for it), and every
payload contained in the submitted bulk batch originates from a row whose
Summary and Issue Type cells are both non-empty. -/
theorem C7_missing_required_skipped (its : List JiraIssueType)
    (search : String → List JiraUser) (bulkCall : List IssueFields → BulkCallResult)
    (pid cu : String) (data : List Row) :
    (∀ i row, data.get? i = some row → (row.summary = "" ∨ row.issueType = "") →
      processRow its search pid cu i row = .silentSkip) ∧
    (∀ ps p, (bulkCreateIssuesRun (.ok its) search bulkCall pid cu data).bulkRequest = some ps →
      p ∈ ps → ∃ j row, data.get? j = some row ∧
        ¬(row.summary = "" ∨ row.issueType = "") ∧
        processRow its search pid cu j row = .payload p) := by
  constructor
  · intro i row _ hempty
    exact processRow_silent its search pid cu i row hempty
  · intro ps p hreq hp
    obtain ⟨hps, -⟩ := run_bulkRequest_some hreq
    subst hps
    obtain ⟨j, row, hget, hrow⟩ := mem_validPayloads hp
    refine ⟨j, row, hget, ?_, hrow⟩
    intro hempty
    rw [processRow_silent its search pid cu j row hempty] at hrow
    cases hrow

/-- C7 witness: a concrete two-row import where the row with an empty
Summary is silently skipped and the submitted batch holds only the
payload of the complete row. -/
theorem C7_missing_required_skipped_witness :
    (processRow [taskType] emptySearch "P" "me" 0 rowNoSummary = .silentSkip) ∧
    (∃ j row, [rowNoSummary, baseRow].get? j = some row ∧
      ¬(row.summary = "" ∨ row.issueType = "") ∧
      processRow [taskType] emptySearch "P" "me" j row = .payload
        { projectId := "P", summary := "Alpha", description := [], issuetypeId := "10002",
          assignee := none, reporter := none, storyPoints := none, parent := none,
          epicName := none }) :=
  ⟨(C7_missing_required_skipped [taskType] emptySearch
      (fun _ => .ok { issueKeys := ["K-1"], errors := [] }) "P" "me"
      [rowNoSummary, baseRow]).1 0 rowNoSummary (by decide) (by decide),
   (C7_missing_required_skipped [taskType] emptySearch
      (fun _ => .ok { issueKeys := ["K-1"], errors := [] }) "P" "me"
      [rowNoSummary, baseRow]).2
      [{ projectId := "P", summary := "Alpha", description := [], issuetypeId := "10002",
         assignee := none, reporter := none, storyPoints := none, parent := none,
         epicName := none }]
      { projectId := "P", summary := "Alpha", description := [], issuetypeId := "10002",
        assignee := none, reporter := none, storyPoints := none, parent := none,
        epicName := none }
      (by decide) (by decide)⟩

/-- C10: when every row of an import is skipped (no valid payload
exists), the import returns a failure whose message contains every
recorded skip reason and no bulk-create request is issued; conversely a
bulk-create request is only ever issued for a non-empty payload list. -/
theorem C10_no_submission_when_all_skipped (its : List JiraIssueType)
    (search : String → List JiraUser) (bulkCall : List IssueFields → BulkCallResult)
    (pid cu : String) (data : List Row) :
    (validPayloads its search pid cu data = [] →
      (bulkCreateIssuesRun (.ok its) search bulkCall pid cu data).outcome.success = false ∧
      (bulkCreateIssuesRun (.ok its) search bulkCall pid cu data).bulkRequest = none ∧
      ∀ r, r ∈ recordedFailures its search pid cu data → ∀ msg,
        (bulkCreateIssuesRun (.ok its) search bulkCall pid cu data).outcome.error = some msg →
        strIncludes msg r = true) ∧
    (∀ ps, (bulkCreateIssuesRun (.ok its) search bulkCall pid cu data).bulkRequest = some ps →
      ps ≠ []) := by
  constructor
  · intro hvp
    rw [run_empty_payloads its search bulkCall pid cu data hvp]
    refine ⟨rfl, rfl, ?_⟩
    intro r hr msg hmsg
    have hne : (recordedFailures its search pid cu data).isEmpty = false := by
      cases hfail : recordedFailures its search pid cu data with
      | nil => rw [hfail] at hr; cases hr
      | cons a l => rfl
    rw [hne] at hmsg
    cases hmsg
    exact strIncludes_of_mem_joinSep " " hr
  · intro ps hps
    obtain ⟨hpseq, hne⟩ := run_bulkRequest_some hps
    rw [hpseq]
    exact hne

/-- C10 witness: a one-row import whose only row names an unknown issue
type; nothing is submitted and the failure message contains the recorded
skip reason. -/
theorem C10_no_submission_when_all_skipped_witness :
    validPayloads [taskType] emptySearch "P" "me" [rowBug] = [] ∧
    ((bulkCreateIssuesRun (.ok [taskType]) emptySearch (fun _ => .httpError "unused")
        "P" "me" [rowBug]).outcome.success = false ∧
      (bulkCreateIssuesRun (.ok [taskType]) emptySearch (fun _ => .httpError "unused")
        "P" "me" [rowBug]).bulkRequest = none) ∧
    strIncludes "Row 2: Invalid issue type \"Bug\". Valid types for this project are: task."
      "Row 2: Invalid issue type \"Bug\". Valid types for this project are: task." = true := by
  refine ⟨by decide, ⟨?_, ?_⟩, ?_⟩
  · exact ((C10_no_submission_when_all_skipped [taskType] emptySearch
      (fun _ => .httpError "unused") "P" "me" [rowBug]).1 (by decide)).1
  · exact ((C10_no_submission_when_all_skipped [taskType] emptySearch
      (fun _ => .httpError "unused") "P" "me" [rowBug]).1 (by decide)).2.1
  · exact ((C10_no_submission_when_all_skipped [taskType] emptySearch
      (fun _ => .httpError "unused") "P" "me" [rowBug]).1 (by decide)).2.2
      _ (by decide) _ (by decide)

/-- C2 counterexample: the skip reason enumerates the valid type names
lowercased, so for a project whose only type is named Story the reason
does not contain the type name Story as written. -/
theorem C2_counterexample :
    storyType.name = "Story" ∧
    processRow [storyType] emptySearch "P" "me" 0 rowBug =
      .reasonSkip "Row 2: Invalid issue type \"Bug\". Valid types for this project are: story." ∧
    strIncludes "Row 2: Invalid issue type \"Bug\". Valid types for this project are: story."
      "Story" = false := by
  refine ⟨rfl, by decide, by decide⟩

/-- C2 (amended): a row with non-empty Summary and Issue Type whose
Issue Type does not resolve against the project's types is skipped with
a recorded reason, and that reason contains the lowercased name of every
fetched issue type (the enumeration joins the lowercased map keys, not
the names as fetched). -/
theorem C2_invalid_type_skip (its : List JiraIssueType)
    (search : String → List JiraUser) (pid cu : String) (idx : Nat) (row : Row)
    (h1 : ¬(row.summary = "" ∨ row.issueType = ""))
    (h2 : validTypeLookup its (jsToLower (jsTrim row.issueType)) = none) :
    ∃ r, processRow its search pid cu idx row = .reasonSkip r ∧
      ∀ it, it ∈ its → strIncludes r (jsToLower it.name) = true := by
  refine ⟨_, processRow_invalidType its search pid cu idx row h1 h2, ?_⟩
  intro it hit
  exact strIncludes_appendL _
    (strIncludes_appendR _ (strIncludes_of_mem_joinSep ", " (lowerName_mem_mapKeys hit)))

/-- C2 witness: with fetched types Story and Task, an unknown type Bug
is skipped and the reason contains both lowercased names. -/
theorem C2_invalid_type_skip_witness :
    ∃ r, processRow [storyType, taskType] emptySearch "P" "me" 0 rowBug = .reasonSkip r ∧
      ∀ it, it ∈ [storyType, taskType] → strIncludes r (jsToLower it.name) = true :=
  C2_invalid_type_skip [storyType, taskType] emptySearch "P" "me" 0 rowBug
    (by decide) (by decide)

/-- C4 counterexample: the first data row (1-indexed position 1 among
the data rows) is reported as Row 2, not Row 1 — the reported number is
its spreadsheet row number counting the header as row 1. -/
theorem C4_counterexample :
    processRow [storyType] emptySearch "P" "me" 0 rowBug =
      .reasonSkip "Row 2: Invalid issue type \"Bug\". Valid types for this project are: story." ∧
    strStartsWith "Row 2: Invalid issue type \"Bug\". Valid types for this project are: story."
      "Row 1:" = false ∧
    strStartsWith "Row 2: Invalid issue type \"Bug\". Valid types for this project are: story."
      "Row 2:" = true := by
  decide

/-- C4 (amended): every recorded skip reason for the row at 0-based
index `idx` starts with the row label `Row (idx + 2):` — the 1-indexed
data-row position plus one, i.e. the spreadsheet row number with the
header as row 1 — and this label is computed once from the row's index,
so the same row is always reported under the same number. -/
theorem C4_row_numbering (its : List JiraIssueType)
    (search : String → List JiraUser) (pid cu : String) (idx : Nat) (row : Row)
    (r : String) (h : processRow its search pid cu idx row = .reasonSkip r) :
    strStartsWith r ("Row " ++ toString (idx + 2) ++ ":") = true := by
  by_cases h1 : row.summary = "" ∨ row.issueType = ""
  · rw [processRow_silent its search pid cu idx row h1] at h
    cases h
  · cases h2 : validTypeLookup its (jsToLower (jsTrim row.issueType)) with
    | none =>
      rw [processRow_invalidType its search pid cu idx row h1 h2] at h
      injection h with h
      subst h
      apply strStartsWith_appendL
      apply strStartsWith_appendL
      apply strStartsWith_appendL
      apply strStartsWith_appendL
      exact strStartsWith_append_both ("Row " ++ toString (idx + 2))
        (by decide : strStartsWith ": Invalid issue type \"" ":" = true)
    | some it =>
      by_cases h3 : it.subtask = true ∧ row.parentKey = ""
      · rw [processRow_subtaskNoParent its search pid cu idx row it h1 h2 h3.1 h3.2] at h
        injection h with h
        subst h
        apply strStartsWith_appendL
        apply strStartsWith_appendL
        exact strStartsWith_append_both ("Row " ++ toString (idx + 2))
          (by decide : strStartsWith ": Sub-task \"" ":" = true)
      · rw [processRow_payload its search pid cu idx row it h1 h2 h3] at h
        cases h

/-- C4 witness: the row at 0-based index 5 (sixth data row) is reported
under the label Row 7. -/
theorem C4_row_numbering_witness :
    strStartsWith "Row 7: Invalid issue type \"Bug\". Valid types for this project are: story."
      ("Row " ++ toString (5 + 2) ++ ":") = true :=
  C4_row_numbering [storyType] emptySearch "P" "me" 5 rowBug
    "Row 7: Invalid issue type \"Bug\". Valid types for this project are: story."
    (by decide)

/-- C5 counterexample: a row resolving to the sub-task type with an
empty Parent Key but also an empty Summary is skipped silently — no
reason citing the Parent Key is recorded, contradicting the claimed
"regardless of the validity of every other column". -/
theorem C5_counterexample :
    validTypeLookup [subtaskType] (jsToLower (jsTrim rowSubEmptySummary.issueType)) =
      some subtaskType ∧
    subtaskType.subtask = true ∧
    rowSubEmptySummary.parentKey = "" ∧
    processRow [subtaskType] emptySearch "P" "me" 0 rowSubEmptySummary = .silentSkip ∧
    recordedFailures [subtaskType] emptySearch "P" "me" [rowSubEmptySummary] = [] := by
  decide

/-- C5 (amended): for a row with non-empty Summary and Issue Type whose
resolved type is subtask-flagged, an empty Parent Key cell always skips
the row with a reason citing the missing Parent Key, and a non-empty
Parent Key cell yields a payload carrying that parent key; a sub-task
row with an empty Summary or Issue Type is instead skipped silently,
before the Parent Key is examined. -/
theorem C5_subtask_parent (its : List JiraIssueType)
    (search : String → List JiraUser) (pid cu : String) (idx : Nat) (row : Row)
    (it : JiraIssueType)
    (h1 : ¬(row.summary = "" ∨ row.issueType = ""))
    (h2 : validTypeLookup its (jsToLower (jsTrim row.issueType)) = some it)
    (h3 : it.subtask = true) :
    (row.parentKey = "" →
      processRow its search pid cu idx row =
        .reasonSkip ("Row " ++ toString (idx + 2) ++ ": Sub-task \"" ++ row.summary ++
          "\" is missing a \x27Parent Key\x27.")) ∧
    (row.parentKey ≠ "" →
      ∃ p, processRow its search pid cu idx row = .payload p ∧
        p.parent = some row.parentKey) := by
  constructor
  · intro h4
    exact processRow_subtaskNoParent its search pid cu idx row it h1 h2 h3 h4
  · intro h4
    refine ⟨_, processRow_payload its search pid cu idx row it h1 h2
      (fun hc => h4 hc.2), ?_⟩
    exact if_pos ⟨h3, h4⟩

/-- C5 witness: with the sub-task type resolved, the empty-Parent-Key
row is skipped with the Parent-Key reason and the keyed row yields a
payload with that parent. -/
theorem C5_subtask_parent_witness :
    (processRow [subtaskType] emptySearch "P" "me" 0
        { baseRow with issueType := "Sub-task" } =
      .reasonSkip "Row 2: Sub-task \"Alpha\" is missing a \x27Parent Key\x27.") ∧
    (∃ p, processRow [subtaskType] emptySearch "P" "me" 0
        { baseRow with issueType := "Sub-task", parentKey := "PROJ-1" } = .payload p ∧
      p.parent = some "PROJ-1") :=
  ⟨(C5_subtask_parent [subtaskType] emptySearch "P" "me" 0
      { baseRow with issueType := "Sub-task" } subtaskType
      (by decide) (by decide) (by decide)).1 (by decide),
   (C5_subtask_parent [subtaskType] emptySearch "P" "me" 0
      { baseRow with issueType := "Sub-task", parentKey := "PROJ-1" } subtaskType
      (by decide) (by decide) (by decide)).2 (by decide)⟩

/-- C6: for every row that produces a payload, the synthetic epic-name
field (custom field 10011) equals the row's Summary exactly when the
resolved issue type's name lowercases to epic, and is absent for every
other resolved type. -/
theorem C6_epic_name (its : List JiraIssueType)
    (search : String → List JiraUser) (pid cu : String) (idx : Nat) (row : Row)
    (it : JiraIssueType) (p : IssueFields)
    (h2 : validTypeLookup its (jsToLower (jsTrim row.issueType)) = some it)
    (hp : processRow its search pid cu idx row = .payload p) :
    (jsToLower it.name = "epic" → p.epicName = some row.summary) ∧
    (jsToLower it.name ≠ "epic" → p.epicName = none) := by
  by_cases h1 : row.summary = "" ∨ row.issueType = ""
  · rw [processRow_silent its search pid cu idx row h1] at hp
    cases hp
  · by_cases h3 : it.subtask = true ∧ row.parentKey = ""
    · rw [processRow_subtaskNoParent its search pid cu idx row it h1 h2 h3.1 h3.2] at hp
      cases hp
    · rw [processRow_payload its search pid cu idx row it h1 h2 h3] at hp
      injection hp with hp
      subst hp
      constructor
      · intro he
        exact if_pos he
      · intro he
        exact if_neg he

/-- C6 witness: a row typed ePic resolves to the Epic descriptor and its
payload carries the epic-name field equal to the Summary; a Task row's
payload carries no epic-name field. -/
theorem C6_epic_name_witness :
    ({ projectId := "P", summary := "Alpha", description := [], issuetypeId := "10000",
       assignee := none, reporter := none, storyPoints := none, parent := none,
       epicName := some "Alpha" } : IssueFields).epicName = some "Alpha" ∧
    ({ projectId := "P", summary := "Alpha", description := [], issuetypeId := "10002",
       assignee := none, reporter := none, storyPoints := none, parent := none,
       epicName := none } : IssueFields).epicName = none :=
  ⟨(C6_epic_name [epicType] emptySearch "P" "me" 0 { baseRow with issueType := "ePic" }
      epicType _ (by decide) (by decide)).1 (by decide),
   (C6_epic_name [taskType] emptySearch "P" "me" 0 baseRow
      taskType _ (by decide) (by decide)).2 (by decide)⟩

/-- C8 counterexample: a Story Points cell holding the digit zero parses
as the number 0 (not NaN), yet the payload omits the points field,
because the source guards the attachment with JavaScript truthiness of
the parsed number and 0 is falsy. -/
theorem C8_counterexample :
    jsParseFloat "0" = .fin 0 0 ∧
    jsIsNaN (.fin 0 0) = false ∧
    rowZeroPoints.storyPoints = "0" ∧
    processRow [taskType] emptySearch "P" "me" 0 rowZeroPoints = .payload
      { projectId := "P", summary := "Alpha", description := [], issuetypeId := "10002",
        assignee := none, reporter := none, storyPoints := none, parent := none,
        epicName := none } := by
  decide

/-- C8 (amended): for every row that produces a payload, the
story-points custom field holds `n` exactly when the cell is non-empty
and parses to `n` with `n` truthy (non-zero) and not NaN; an empty,
non-numeric, or zero cell omits the field silently and never fails the
row. -/
theorem C8_story_points (its : List JiraIssueType)
    (search : String → List JiraUser) (pid cu : String) (idx : Nat) (row : Row)
    (it : JiraIssueType)
    (h1 : ¬(row.summary = "" ∨ row.issueType = ""))
    (h2 : validTypeLookup its (jsToLower (jsTrim row.issueType)) = some it)
    (h3 : ¬(it.subtask = true ∧ row.parentKey = "")) :
    ∃ p, processRow its search pid cu idx row = .payload p ∧
      ∀ n, p.storyPoints = some n ↔
        (row.storyPoints ≠ "" ∧ jsParseFloat row.storyPoints = n ∧
          jsTruthy n = true ∧ jsIsNaN n = false) := by
  refine ⟨_, processRow_payload its search pid cu idx row it h1 h2 h3, ?_⟩
  intro n
  by_cases hsp : row.storyPoints = ""
  · simp [hsp]
  · simp only [if_neg hsp, Option.some_bind]
    by_cases hcond :
        (jsTruthy (jsParseFloat row.storyPoints) && !jsIsNaN (jsParseFloat row.storyPoints)) = true
    · rw [if_pos hcond]
      rw [Bool.and_eq_true, Bool.not_eq_true'] at hcond
      constructor
      · intro hsome
        injection hsome with hsome
        subst hsome
        exact ⟨hsp, rfl, hcond.1, hcond.2⟩
      · rintro ⟨-, hpf, -, -⟩
        rw [hpf]
    · rw [if_neg hcond]
      rw [Bool.and_eq_true, Bool.not_eq_true'] at hcond
      constructor
      · intro hsome
        cases hsome
      · rintro ⟨-, hpf, ht, hn⟩
        rw [hpf] at hcond
        exact absurd ⟨ht, hn⟩ hcond

/-- C8 witness: a cell holding 2.5 attaches the points field with the
parsed value 25 times ten to the minus one. -/
theorem C8_story_points_witness :
    ∃ p, processRow [taskType] emptySearch "P" "me" 0
        { baseRow with storyPoints := "2.5" } = .payload p ∧
      ∀ n, p.storyPoints = some n ↔
        (({ baseRow with storyPoints := "2.5" } : Row).storyPoints ≠ "" ∧
          jsParseFloat ({ baseRow with storyPoints := "2.5" } : Row).storyPoints = n ∧
          jsTruthy n = true ∧ jsIsNaN n = false) :=
  C8_story_points [taskType] emptySearch "P" "me" 0
    { baseRow with storyPoints := "2.5" } taskType (by decide) (by decide) (by decide)

/-- C9 counterexample: user resolution is not memoized — two rows naming
the same assignee email cause two user-search requests for that email
(and likewise for the reporter email), contradicting the claimed
at-most-one search per distinct email per import. -/
theorem C9_counterexample :
    userSearchRequests [taskType] "me@corp.com" [rowDupEmails, rowDupEmails] =
      ["dev@example.com", "lead@example.com", "dev@example.com", "lead@example.com"] ∧
    (userSearchRequests [taskType] "me@corp.com"
      [rowDupEmails, rowDupEmails]).count "dev@example.com" = 2 ∧
    1 < 2 := by
  decide

/-- C9 (amended): user resolution is per-row, not memoized: `n` rows
with identical cells issue `n` times the requests of one row (so the
same email is searched once per referencing row, and the importing
user's email is searched once per row lacking a reporter email); an
email that fails the format guard or matches no account resolves to
none, and the corresponding assignee/reporter field is omitted from the
payload without failing the row. -/
theorem C9_user_resolution (its : List JiraIssueType)
    (search : String → List JiraUser) (pid cu : String) (idx : Nat) (row : Row)
    (it : JiraIssueType)
    (h1 : ¬(row.summary = "" ∨ row.issueType = ""))
    (h2 : validTypeLookup its (jsToLower (jsTrim row.issueType)) = some it)
    (h3 : ¬(it.subtask = true ∧ row.parentKey = "")) :
    (findUserByEmail search row.assigneeEmail = none →
      ∃ p, processRow its search pid cu idx row = .payload p ∧ p.assignee = none) ∧
    (row.reporterEmail ≠ "" → findUserByEmail search row.reporterEmail = none →
      ∃ p, processRow its search pid cu idx row = .payload p ∧ p.reporter = none) ∧
    (∀ n e, (userSearchRequests its cu (List.replicate n row)).count e =
      n * (rowRequests its cu row).count e) := by
  refine ⟨?_, ?_, fun n e => count_userSearchRequests_replicate its cu row e n⟩
  · intro hnone
    refine ⟨_, processRow_payload its search pid cu idx row it h1 h2 h3, ?_⟩
    by_cases ha : row.assigneeEmail = ""
    · rw [if_pos ha]
      rfl
    · rw [if_neg ha, hnone]
      rfl
  · intro hrep hnone
    refine ⟨_, processRow_payload its search pid cu idx row it h1 h2 h3, ?_⟩
    rw [if_neg hrep, hnone]
    rfl

/-- C9 witness: an unmatched assignee email yields a payload without an
assignee, and three identical rows issue three searches for it. -/
theorem C9_user_resolution_witness :
    (∃ p, processRow [taskType] emptySearch "P" "me@corp.com" 0
        { baseRow with assigneeEmail := "ghost@nowhere.io" } = .payload p ∧
      p.assignee = none) ∧
    (userSearchRequests [taskType] "me@corp.com"
        (List.replicate 3 { baseRow with assigneeEmail := "ghost@nowhere.io" })).count
          "ghost@nowhere.io" =
      3 * (rowRequests [taskType] "me@corp.com"
        { baseRow with assigneeEmail := "ghost@nowhere.io" }).count "ghost@nowhere.io" :=
  ⟨(C9_user_resolution [taskType] emptySearch "P" "me@corp.com" 0
      { baseRow with assigneeEmail := "ghost@nowhere.io" } taskType
      (by decide) (by decide) (by decide)).1 (by decide),
   (C9_user_resolution [taskType] emptySearch "P" "me@corp.com" 0
      { baseRow with assigneeEmail := "ghost@nowhere.io" } taskType
      (by decide) (by decide) (by decide)).2.2 3 "ghost@nowhere.io"⟩

/-- C1 counterexample: a two-row import whose first row is skipped
silently (empty Summary) and whose single submitted payload is created:
the bulk call returned N = 1 keys and M = 0 per-element failures for 1
payload, one row was skipped before submission, yet the report's
failedCount is 0, not M + 1 — silently skipped rows are not counted. -/
theorem C1_counterexample :
    (bulkCreateIssuesRun (.ok [taskType]) emptySearch
        (fun _ => .ok { issueKeys := ["K-1"], errors := [] }) "P" "me"
        [rowNoSummary, baseRow]).outcome.failedCount = some 0 ∧
    (bulkCreateIssuesRun (.ok [taskType]) emptySearch
        (fun _ => .ok { issueKeys := ["K-1"], errors := [] }) "P" "me"
        [rowNoSummary, baseRow]).outcome.createdCount = some 1 ∧
    (validPayloads [taskType] emptySearch "P" "me" [rowNoSummary, baseRow]).length = 1 ∧
    ([rowNoSummary, baseRow] : List Row).length = 2 ∧
    (0 : Nat) ≠ 0 + 1 := by
  decide

/-- C1 (amended): when the bulk call returns an ok response, the
report's createdCount is the number of returned issue keys and its
failedCount is the number of per-element failures plus the number of
rows skipped with a recorded reason (invalid issue type or sub-task
missing its Parent Key) — rows skipped silently for a missing Summary or
Issue Type are not counted — and, for every per-element failure whose
batch index is in range, the failure message contains
`Issue "<summary>":` for the summary of the payload at that index of the
skip-filtered batch, not the raw batch index. -/
theorem C1_report_counts (its : List JiraIssueType)
    (search : String → List JiraUser) (bulkCall : List IssueFields → BulkCallResult)
    (pid cu : String) (data : List Row) (result : BulkResult)
    (hne : validPayloads its search pid cu data ≠ [])
    (hcall : bulkCall (validPayloads its search pid cu data) = .ok result) :
    (bulkCreateIssuesRun (.ok its) search bulkCall pid cu data).outcome.createdCount =
      some result.issueKeys.length ∧
    (bulkCreateIssuesRun (.ok its) search bulkCall pid cu data).outcome.failedCount =
      some (result.errors.length + (recordedFailures its search pid cu data).length) ∧
    ∀ e, e ∈ result.errors →
      e.failedElementNumber < (validPayloads its search pid cu data).length →
      ∃ p msg, (validPayloads its search pid cu data).get? e.failedElementNumber = some p ∧
        (bulkCreateIssuesRun (.ok its) search bulkCall pid cu data).outcome.error = some msg ∧
        strIncludes msg ("Issue \"" ++ p.summary ++ "\":") = true := by
  have hemp : (validPayloads its search pid cu data).isEmpty = false := by
    simpa [List.isEmpty_iff] using hne
  obtain ⟨hcreated, hfailed⟩ := run_bulk_ok_counts its search bulkCall pid cu data result hemp hcall
  refine ⟨hcreated, hfailed, ?_⟩
  intro e he hidx
  have hp : (validPayloads its search pid cu data).get? e.failedElementNumber =
      some ((validPayloads its search pid cu data).get ⟨e.failedElementNumber, hidx⟩) :=
    List.get?_eq_get hidx
  set p := (validPayloads its search pid cu data).get ⟨e.failedElementNumber, hidx⟩ with hpdef
  refine ⟨p, _, hp, run_bulk_ok_failed its search bulkCall pid cu data result hemp hcall ?_, ?_⟩
  · have : result.errors.length ≠ 0 := by
      intro h0
      rw [List.length_eq_zero] at h0
      rw [h0] at he
      cases he
    omega
  · -- the detail line for e starts with the pattern
    have hdetail : strIncludes (apiErrorDetail (validPayloads its search pid cu data) e)
        ("Issue \"" ++ p.summary ++ "\":") = true := by
      unfold apiErrorDetail
      rw [hp]
      dsimp only
      have hsplit : ("\": " : String) = "\":" ++ " " := by decide
      rw [hsplit, ← String.append_assoc]
      exact strIncludes_appendL _ (strIncludes_appendL _ (strIncludes_self _))
    have hpat_ne : ("Issue \"" ++ p.summary ++ "\":" : String) ≠ "" :=
      strIncludes_ne_empty (strIncludes_appendR _ (strIncludes_self "\":")) (by decide)
    have hdet_ne : apiErrorDetail (validPayloads its search pid cu data) e ≠ "" :=
      strIncludes_ne_empty hdetail hpat_ne
    have hjoin : strIncludes (joinSep "; " (result.errors.map
        (apiErrorDetail (validPayloads its search pid cu data))))
        (apiErrorDetail (validPayloads its search pid cu data) e) = true :=
      strIncludes_of_mem_joinSep "; " (List.mem_map_of_mem _ he)
    have hjoin_ne : joinSep "; " (result.errors.map
        (apiErrorDetail (validPayloads its search pid cu data))) ≠ "" :=
      strIncludes_ne_empty hjoin hdet_ne
    have hmemfilter : joinSep "; " (result.errors.map
        (apiErrorDetail (validPayloads its search pid cu data))) ∈
        ((recordedFailures its search pid cu data ++
          [joinSep "; " (result.errors.map
            (apiErrorDetail (validPayloads its search pid cu data)))]).filter
          (fun s => s ≠ "")) := by
      refine List.mem_filter.mpr ⟨List.mem_append_right _ (List.mem_singleton.mpr rfl), ?_⟩
      simpa using hjoin_ne
    have hsummary : strIncludes (joinSep "; "
        (((recordedFailures its search pid cu data) ++
          [joinSep "; " (result.errors.map
            (apiErrorDetail (validPayloads its search pid cu data)))]).filter
          (fun s => s ≠ "")))
        (apiErrorDetail (validPayloads its search pid cu data) e) = true :=
      strIncludes_trans (strIncludes_of_mem_joinSep "; " hmemfilter) hjoin
    exact strIncludes_trans (strIncludes_appendR _ hsummary) hdetail

/-- A bulk response with one created key and one per-element failure at
batch index 1. -/
def oneFailResult : BulkResult :=
  { issueKeys := ["K-1"],
    errors := [{ failedElementNumber := 1, errorMessages := ["boom"] }] }

/-- A bulk-create oracle that always answers with `oneFailResult`. -/
def oneFailCall : List IssueFields → BulkCallResult := fun _ => .ok oneFailResult

/-- C1 witness: one recorded skip (invalid type), two submitted
payloads, one created key and one per-element failure at batch index 1:
createdCount is 1, failedCount is 1 + 1, and the failure message names
the summary Beta of the payload at batch index 1. -/
theorem C1_report_counts_witness :
    (bulkCreateIssuesRun (.ok [taskType]) emptySearch oneFailCall
        "P" "me" [rowBug, baseRow, betaRow]).outcome.createdCount = some 1 ∧
    (bulkCreateIssuesRun (.ok [taskType]) emptySearch oneFailCall
        "P" "me" [rowBug, baseRow, betaRow]).outcome.failedCount =
      some (1 + (recordedFailures [taskType] emptySearch "P" "me"
        [rowBug, baseRow, betaRow]).length) ∧
    (∃ p msg, (validPayloads [taskType] emptySearch "P" "me"
        [rowBug, baseRow, betaRow]).get? 1 = some p ∧
      (bulkCreateIssuesRun (.ok [taskType]) emptySearch oneFailCall
        "P" "me" [rowBug, baseRow, betaRow]).outcome.error = some msg ∧
      strIncludes msg ("Issue \"" ++ p.summary ++ "\":") = true) := by
  obtain ⟨h1, h2, h3⟩ := C1_report_counts [taskType] emptySearch oneFailCall
    "P" "me" [rowBug, baseRow, betaRow] oneFailResult (by decide) rfl
  exact ⟨h1, h2, h3 { failedElementNumber := 1, errorMessages := ["boom"] }
    (by decide) (by decide)⟩

/-- C3: the claim is right, the code has a slip. A failed issue-type
fetch is fatal before any row processing, but an ok fetch returning an
empty set is not caught by the guard (an empty array is truthy in
JavaScript): the import proceeds into row validation and every typed row
is skipped with an invalid-type reason that enumerates zero valid names,
instead of the single fatal configuration error the claim (and the
sibling implementation in the repository) prescribes. -/
theorem C3_empty_issue_types_not_fatal :
    (bulkCreateIssuesRun (getIssueTypesForProject (.ok [])) emptySearch
        (fun _ => .httpError "unused") "P" "me" [baseRow] =
      ⟨⟨false, some "Row 2: Invalid issue type \"Task\". Valid types for this project are: .",
        none, none⟩, none, []⟩) ∧
    (bulkCreateIssuesRun (getIssueTypesForProject (.fail 403)) emptySearch
        (fun _ => .httpError "unused") "P" "me" [baseRow] =
      ⟨⟨false,
        some "Failed to fetch issue types. Your token might have expired or lacks permissions.",
        none, none⟩, none, []⟩) := by
  decide

end JiraImport
